import Mathlib

/-!
# Verification of `pdf_to_webp.py`

A shallow embedding of the page-rasterization pipeline of
`src/pdf_to_webp.py` (function `pdf_to_webp`, plus its helper
`validate_parameters`), together with theorems settling the specified
claims about it.

The Python function performs I/O through two collaborators (the PyMuPDF
document engine and the PIL image codec) and the filesystem.  The
embedding models those effects explicitly:

* `PdfPath` models the `pathlib.Path` argument: whether it exists,
  whether it is a regular file, and its `parent`, `stem` and string form.
* `Doc` models the behaviour of the external rasterization engine on
  this run: whether `fitz.open` succeeds, the page count, and for each
  page index whether the render/decode/encode sequence raises.
* `Trace` records the filesystem and handle effects the function
  performs: `mkdir` calls (with their `parents`/`exist_ok` flags), file
  writes (path plus the encoding used), and how many times the document
  handle was opened and closed.

`pdf_to_webp` below mirrors the source line by line: validation first,
then the existence and regular-file checks, output-directory resolution,
`mkdir`, `fitz.open`, the zero-page check, the per-page loop with its
page-level `try/except ... continue`, the zero-success check, and the
`finally: doc.close()`.
-/

namespace PdfToWebpModel

/-- Constant `WEBP_METHOD = 6` from the source. -/
def WEBP_METHOD : Nat := 6

/-- Constant `DEFAULT_DPI = 300` from the source. -/
def DEFAULT_DPI : Int := 300

/-- Constant `DEFAULT_QUALITY = 90` from the source. -/
def DEFAULT_QUALITY : Int := 90

/-- The Python exception classes raised by `pdf_to_webp`, each carrying
its message string. -/
inductive PyError where
  | valueError : String → PyError
  | fileNotFoundError : String → PyError
  | runtimeError : String → PyError
deriving DecidableEq, Repr

/-- Model of the `pathlib.Path` passed as `pdf_path`: the results of the
`exists()` and `is_file()` queries, the `parent` and `stem` components,
and the full textual form used in error messages. -/
structure PdfPath where
  exists_ : Bool
  is_file : Bool
  parent : String
  stem : String
  full : String
deriving DecidableEq, Repr

/-- Model of the external rasterization engine's behaviour on this run:
whether `fitz.open` succeeds (`openOk`), the message of the open
exception otherwise, the page count `len(doc)`, and for each page index
whether any of the page's render/decode/encode steps raises
(`pageFails`). -/
structure Doc where
  openOk : Bool
  openErr : String
  numPages : Nat
  pageFails : Nat → Bool

/-- A recorded `Path.mkdir` call with its keyword flags. -/
structure MkdirCall where
  path : String
  parents : Bool
  exist_ok : Bool
deriving DecidableEq, Repr

/-- The WebP encoding used for a written file: `img.save(..., lossless=True)`
or `img.save(..., quality=quality, method=WEBP_METHOD)`. -/
inductive Encoding where
  | losslessEnc : Encoding
  | lossyEnc : Int → Nat → Encoding
deriving DecidableEq, Repr

/-- A recorded file write: destination path and the encoding used. -/
structure FileWrite where
  path : String
  enc : Encoding
deriving DecidableEq, Repr

/-- The observable side effects of one invocation: `mkdir` calls, file
writes, and the number of times the document handle was opened and
closed. -/
structure Trace where
  mkdirs : List MkdirCall
  writes : List FileWrite
  docOpened : Nat
  docClosed : Nat
deriving DecidableEq, Repr

/-- The trace of an invocation that performed no filesystem or handle
work at all. -/
def emptyTrace : Trace := ⟨[], [], 0, 0⟩

/-- Message of the `ValueError` raised for an out-of-range DPI
(`f"DPI должен быть в диапазоне 72-1200, получено: {dpi}"`). -/
def dpiErrorMsg (dpi : Int) : String :=
  "DPI должен быть в диапазоне 72-1200, получено: " ++ toString dpi

/-- Message of the `ValueError` raised for an out-of-range quality
(`f"Качество должно быть в диапазоне 0-100, получено: {quality}"`). -/
def qualityErrorMsg (quality : Int) : String :=
  "Качество должно быть в диапазоне 0-100, получено: " ++ toString quality

/-- Embedding of `validate_parameters` (src lines 107-122): reject
`dpi` outside `[72, 1200]`, then `quality` outside `[0, 100]`. -/
def validate_parameters (dpi quality : Int) : Except PyError Unit :=
  if dpi < 72 ∨ dpi > 1200 then
    .error (.valueError (dpiErrorMsg dpi))
  else if quality < 0 ∨ quality > 100 then
    .error (.valueError (qualityErrorMsg quality))
  else
    .ok ()

/-- Decimal digit character, as produced by Python's integer formatting. -/
def digitChar (d : Nat) : Char := Char.ofNat (48 + d)

/-- Fuelled decimal rendering of a natural number, least-significant
digit peeled off last; `fuel ≥ n + 1` always suffices. -/
def decStrCore : Nat → Nat → String
  | 0, _ => ""
  | fuel + 1, n =>
    if n < 10 then String.singleton (digitChar n)
    else decStrCore fuel (n / 10) ++ String.singleton (digitChar (n % 10))

/-- Decimal rendering of a natural number (the digits Python's `d`
format code produces for a nonnegative integer). -/
def decStr (n : Nat) : String := decStrCore (n + 1) n

/-- Embedding of the format expression `f"{page_num + 1:02d}"` (src line
209), applied to the 1-based page number: the decimal digits,
zero-padded on the left to a minimum width of two. -/
def pad2 (n : Nat) : String :=
  if n < 10 then "0" ++ decStr n else decStr n

/-- Embedding of `output_path = output_dir / f"{page_num + 1:02d}.webp"`
(src lines 209-210), for 1-based page number `pageNum`. -/
def pageOutputPath (outDir : String) (pageNum : Nat) : String :=
  outDir ++ "/" ++ pad2 pageNum ++ ".webp"

/-- The encoding chosen at src lines 213-216: lossless when the flag is
set (quality unused), else lossy at `quality` with `method=WEBP_METHOD`. -/
def encodeMode (quality : Int) (lossless : Bool) : Encoding :=
  if lossless then .losslessEnc else .lossyEnc quality WEBP_METHOD

/-- Resolution of the output directory (src lines 164-168): when
`output_dir` is absent, `pdf_path.parent / f"{pdf_path.stem}_webp"`. -/
def resolvedOutDir (pdf : PdfPath) (output_dir : Option String) : String :=
  match output_dir with
  | none => pdf.parent ++ "/" ++ pdf.stem ++ "_webp"
  | some d => d

/-- One iteration of the page loop (src lines 194-223), acting on the
accumulated `(converted_files, writes)` state for page index `i`: a page
whose processing raises is skipped (`except ... continue`); otherwise
its file is written and its path appended. -/
def loopStep (doc : Doc) (outDir : String) (quality : Int) (lossless : Bool)
    (acc : List String × List FileWrite) (i : Nat) : List String × List FileWrite :=
  if doc.pageFails i then acc
  else
    (acc.1 ++ [pageOutputPath outDir (i + 1)],
     acc.2 ++ [⟨pageOutputPath outDir (i + 1), encodeMode quality lossless⟩])

/-- Embedding of `pdf_to_webp` (src lines 125-235).  Returns the Python
result (`converted_files` or the raised exception) paired with the trace
of side effects performed. -/
def pdf_to_webp (pdf : PdfPath) (doc : Doc) (output_dir : Option String)
    (dpi : Int) (quality : Int) (lossless : Bool) :
    Except PyError (List String) × Trace :=
  match validate_parameters dpi quality with
  | .error e => (.error e, emptyTrace)
  | .ok _ =>
    if pdf.exists_ = false then
      (.error (.fileNotFoundError ("PDF файл не найден: " ++ pdf.full)), emptyTrace)
    else if pdf.is_file = false then
      (.error (.valueError ("Указанный путь не является файлом: " ++ pdf.full)), emptyTrace)
    else
      let outDir := resolvedOutDir pdf output_dir
      let mkdirs := [MkdirCall.mk outDir true true]
      if doc.openOk = false then
        (.error (.runtimeError ("Ошибка открытия PDF файла: " ++ doc.openErr)),
         ⟨mkdirs, [], 0, 0⟩)
      else if doc.numPages = 0 then
        (.error (.valueError "PDF файл не содержит страниц"),
         ⟨mkdirs, [], 1, 1⟩)
      else
        let res := (List.range doc.numPages).foldl (loopStep doc outDir quality lossless) ([], [])
        if res.1 = [] then
          (.error (.runtimeError "Не удалось обработать ни одной страницы"),
           ⟨mkdirs, res.2, 1, 1⟩)
        else
          (.ok res.1, ⟨mkdirs, res.2, 1, 1⟩)

/-- The page indices that convert without error, in loop order. -/
def okPages (doc : Doc) : List Nat :=
  (List.range doc.numPages).filter (fun i => !doc.pageFails i)

/-- The list `pdf_to_webp` is specified to return: one output path per
page that converted without error, in ascending page order. -/
def okPaths (doc : Doc) (outDir : String) : List String :=
  (okPages doc).map (fun i => pageOutputPath outDir (i + 1))

/-- The file writes the loop is specified to perform. -/
def okWrites (doc : Doc) (outDir : String) (quality : Int) (lossless : Bool) :
    List FileWrite :=
  (okPages doc).map (fun i => ⟨pageOutputPath outDir (i + 1), encodeMode quality lossless⟩)

end PdfToWebpModel

namespace PdfToWebpModel

/-! ## Helper lemmas -/

theorem one_le_decStrCore_length (fuel n : Nat) (h : 1 ≤ fuel) :
    1 ≤ (decStrCore fuel n).length := by
  match fuel with
  | f + 1 =>
    rw [decStrCore]
    split
    · simp
    · simp [String.length_append]

theorem decStr_length_ge_two (n : Nat) (h : 10 ≤ n) : 2 ≤ (decStr n).length := by
  rw [decStr, decStrCore]
  rw [if_neg (by omega)]
  rw [String.length_append]
  have := one_le_decStrCore_length n (n / 10) (by omega)
  simp at *
  omega

theorem pad2_length_ge_two (n : Nat) : 2 ≤ (pad2 n).length := by
  rw [pad2]
  split
  · rw [decStr, decStrCore]
    rw [if_pos (by omega)]
    have h0 : "0".length = 1 := rfl
    simp [String.length_append, h0]
  · exact decStr_length_ge_two n (by omega)

theorem pad2_of_lt_ten (n : Nat) (h : n < 10) : pad2 n = "0" ++ decStr n := by
  rw [pad2, if_pos h]

theorem pad2_of_ge_ten (n : Nat) (h : 10 ≤ n) : pad2 n = decStr n := by
  rw [pad2, if_neg (by omega)]

theorem foldl_loopStep (doc : Doc) (outDir : String) (quality : Int) (lossless : Bool)
    (n : Nat) (acc : List String × List FileWrite) :
    (List.range n).foldl (loopStep doc outDir quality lossless) acc =
      (acc.1 ++ ((List.range n).filter (fun i => !doc.pageFails i)).map
          (fun i => pageOutputPath outDir (i + 1)),
       acc.2 ++ ((List.range n).filter (fun i => !doc.pageFails i)).map
          (fun i => FileWrite.mk (pageOutputPath outDir (i + 1)) (encodeMode quality lossless))) := by
  induction n generalizing acc with
  | zero => simp
  | succ m ih =>
    rw [List.range_succ, List.foldl_append, ih]
    simp only [List.foldl_cons, List.foldl_nil, List.filter_append, List.map_append]
    rw [loopStep]
    by_cases hf : doc.pageFails m
    · simp [hf]
    · simp [hf]

/-- The loop started from the empty accumulator produces exactly the
specified paths and writes. -/
theorem loop_spec (doc : Doc) (outDir : String) (quality : Int) (lossless : Bool) :
    (List.range doc.numPages).foldl (loopStep doc outDir quality lossless) ([], []) =
      (okPaths doc outDir, okWrites doc outDir quality lossless) := by
  rw [foldl_loopStep]
  simp [okPaths, okWrites, okPages]

end PdfToWebpModel

namespace PdfToWebpModel

/-- Closed-form characterization of `pdf_to_webp`: the function equals
the cascade of its guard conditions, in source order, with the loop
replaced by its specification `okPaths`/`okWrites`. -/
theorem pdf_to_webp_eq (pdf : PdfPath) (doc : Doc) (od : Option String)
    (dpi quality : Int) (lossless : Bool) :
    pdf_to_webp pdf doc od dpi quality lossless =
      if dpi < 72 ∨ dpi > 1200 then
        (.error (.valueError (dpiErrorMsg dpi)), emptyTrace)
      else if quality < 0 ∨ quality > 100 then
        (.error (.valueError (qualityErrorMsg quality)), emptyTrace)
      else if pdf.exists_ = false then
        (.error (.fileNotFoundError ("PDF файл не найден: " ++ pdf.full)), emptyTrace)
      else if pdf.is_file = false then
        (.error (.valueError ("Указанный путь не является файлом: " ++ pdf.full)), emptyTrace)
      else if doc.openOk = false then
        (.error (.runtimeError ("Ошибка открытия PDF файла: " ++ doc.openErr)),
         ⟨[⟨resolvedOutDir pdf od, true, true⟩], [], 0, 0⟩)
      else if doc.numPages = 0 then
        (.error (.valueError "PDF файл не содержит страниц"),
         ⟨[⟨resolvedOutDir pdf od, true, true⟩], [], 1, 1⟩)
      else if okPaths doc (resolvedOutDir pdf od) = [] then
        (.error (.runtimeError "Не удалось обработать ни одной страницы"),
         ⟨[⟨resolvedOutDir pdf od, true, true⟩],
          okWrites doc (resolvedOutDir pdf od) quality lossless, 1, 1⟩)
      else
        (.ok (okPaths doc (resolvedOutDir pdf od)),
         ⟨[⟨resolvedOutDir pdf od, true, true⟩],
          okWrites doc (resolvedOutDir pdf od) quality lossless, 1, 1⟩) := by
  unfold pdf_to_webp validate_parameters
  by_cases h1 : dpi < 72 ∨ dpi > 1200
  · simp [h1]
  · by_cases h2 : quality < 0 ∨ quality > 100
    · simp [h1, h2]
    · simp only [if_neg h1, if_neg h2, loop_spec]

end PdfToWebpModel

namespace PdfToWebpModel

/-! ## Concrete instances used by the witnesses -/

/-- A well-formed source path: `/docs/report.pdf`. -/
def samplePdf : PdfPath := ⟨true, true, "/docs", "report", "/docs/report.pdf"⟩

/-- A 3-page document whose middle page (index 1) fails to convert. -/
def sampleDoc : Doc := ⟨true, "", 3, fun i => decide (i = 1)⟩

/-- A 2-page document in which every page fails to convert. -/
def allFailDoc : Doc := ⟨true, "", 2, fun _ => true⟩

/-- A document that opens but has zero pages. -/
def emptyDoc : Doc := ⟨true, "", 0, fun _ => false⟩

/-- An existing path that is not a regular file (e.g. a directory). -/
def dirPdf : PdfPath := ⟨true, false, "/docs", "folder", "/docs/folder"⟩

/-- A path that does not exist. -/
def missingPdf : PdfPath := ⟨false, false, "/docs", "ghost", "/docs/ghost.pdf"⟩

/-! ## Claims -/

/-- C1: for every document with at least one page, the list returned by
`pdf_to_webp` contains exactly one output path per page that converted
without error (`okPaths` maps each non-failing page index to its path),
in strictly ascending page order, and a failed page contributes no entry
and no placeholder. -/
theorem c1_output_bijection (pdf : PdfPath) (doc : Doc) (od : Option String)
    (dpi quality : Int) (lossless : Bool) (files : List String)
    (hpages : 1 ≤ doc.numPages)
    (h : (pdf_to_webp pdf doc od dpi quality lossless).1 = .ok files) :
    files = okPaths doc (resolvedOutDir pdf od) ∧
      (okPages doc).Pairwise (· < ·) := by
  refine ⟨?_, List.Pairwise.sublist (List.filter_sublist _) (List.pairwise_lt_range _)⟩
  rw [pdf_to_webp_eq] at h
  repeat' split at h
  all_goals simp_all

/-- C1 witness: on the 3-page document whose page index 1 fails, the
returned list is `01.webp` and `03.webp` under `/docs/report_webp`. -/
theorem c1_output_bijection_witness :
    ["/docs/report_webp/01.webp", "/docs/report_webp/03.webp"]
        = okPaths sampleDoc (resolvedOutDir samplePdf none) ∧
      (okPages sampleDoc).Pairwise (· < ·) :=
  c1_output_bijection samplePdf sampleDoc none 300 90 false
    ["/docs/report_webp/01.webp", "/docs/report_webp/03.webp"]
    (by decide) (by rfl)

end PdfToWebpModel

namespace PdfToWebpModel

/-- C2: under valid parameters, an existing regular file and a
successful open, as long as at least one page converts, the run returns
normally with the non-failing pages' paths: any page failure is absorbed
at the page boundary (the `except ... continue`), pages after a failing
page are still processed, and no page failure escapes as an exception or
aborts the run. -/
theorem c2_page_failure_isolated (pdf : PdfPath) (doc : Doc) (od : Option String)
    (dpi quality : Int) (lossless : Bool)
    (hd1 : 72 ≤ dpi) (hd2 : dpi ≤ 1200) (hq1 : 0 ≤ quality) (hq2 : quality ≤ 100)
    (he : pdf.exists_ = true) (hf : pdf.is_file = true) (ho : doc.openOk = true)
    (j : Nat) (hj : j < doc.numPages) (hjok : doc.pageFails j = false) :
    (pdf_to_webp pdf doc od dpi quality lossless).1
      = .ok (okPaths doc (resolvedOutDir pdf od)) := by
  have hmem : j ∈ okPages doc := by
    rw [okPages, List.mem_filter]
    exact ⟨List.mem_range.mpr hj, by simp [hjok]⟩
  have hne : okPaths doc (resolvedOutDir pdf od) ≠ [] := by
    rw [okPaths]
    intro hnil
    rw [List.map_eq_nil_iff] at hnil
    rw [hnil] at hmem
    exact List.not_mem_nil j hmem
  rw [pdf_to_webp_eq]
  rw [if_neg (by omega), if_neg (by omega), if_neg (by simp [he]),
      if_neg (by simp [hf]), if_neg (by simp [ho]), if_neg (by omega),
      if_neg hne]

/-- C2 witness: page index 1 of the sample document fails, yet the run
succeeds and returns the other two pages. -/
theorem c2_page_failure_isolated_witness :
    (pdf_to_webp samplePdf sampleDoc none 300 90 false).1
      = .ok (okPaths sampleDoc (resolvedOutDir samplePdf none)) :=
  c2_page_failure_isolated samplePdf sampleDoc none 300 90 false
    (by decide) (by decide) (by decide) (by decide) (by decide) (by decide) (by decide)
    0 (by decide) (by decide)

/-- C3: for `dpi` outside `[72, 1200]` or `quality` outside `[0, 100]`,
`pdf_to_webp` raises a `ValueError` whose message (`dpiErrorMsg` /
`qualityErrorMsg`) names the offending value, and it does so before any
filesystem work: the trace is empty, so no directory is created and no
file is written. -/
theorem c3_validation_before_io (pdf : PdfPath) (doc : Doc) (od : Option String)
    (dpi quality : Int) (lossless : Bool)
    (h : dpi < 72 ∨ dpi > 1200 ∨ quality < 0 ∨ quality > 100) :
    (pdf_to_webp pdf doc od dpi quality lossless).2 = emptyTrace ∧
    ((dpi < 72 ∨ dpi > 1200) →
      (pdf_to_webp pdf doc od dpi quality lossless).1
        = .error (.valueError (dpiErrorMsg dpi))) ∧
    (¬(dpi < 72 ∨ dpi > 1200) →
      (pdf_to_webp pdf doc od dpi quality lossless).1
        = .error (.valueError (qualityErrorMsg quality))) := by
  rw [pdf_to_webp_eq]
  by_cases h1 : dpi < 72 ∨ dpi > 1200
  · simp [h1]
  · have h2 : quality < 0 ∨ quality > 100 := by tauto
    simp [h1, h2]

/-- C3 witness: `dpi = 50` is rejected with the DPI message and an empty
trace. -/
theorem c3_validation_before_io_witness :
    (pdf_to_webp samplePdf sampleDoc none 50 90 false).2 = emptyTrace ∧
    ((50 : Int) < 72 ∨ (50 : Int) > 1200 →
      (pdf_to_webp samplePdf sampleDoc none 50 90 false).1
        = .error (.valueError (dpiErrorMsg 50))) ∧
    (¬((50 : Int) < 72 ∨ (50 : Int) > 1200) →
      (pdf_to_webp samplePdf sampleDoc none 50 90 false).1
        = .error (.valueError (qualityErrorMsg 90))) :=
  c3_validation_before_io samplePdf sampleDoc none 50 90 false (by decide)

end PdfToWebpModel

namespace PdfToWebpModel

/-- C4: every successfully converted page at zero-based index `i`
produces the file `<outDir>/<pad2 (i+1)>.webp` directly inside the
resolved output directory, where `pad2` zero-pads the 1-based page
number to at least two digits (`01.webp`, …, `10.webp`, …) and page
numbers of ten or more digits-wise widen naturally with no further
padding. -/
theorem c4_output_naming (pdf : PdfPath) (doc : Doc) (od : Option String)
    (dpi quality : Int) (lossless : Bool) (i : Nat)
    (hd1 : 72 ≤ dpi) (hd2 : dpi ≤ 1200) (hq1 : 0 ≤ quality) (hq2 : quality ≤ 100)
    (he : pdf.exists_ = true) (hf : pdf.is_file = true) (ho : doc.openOk = true)
    (hi : i < doc.numPages) (hok : doc.pageFails i = false) :
    FileWrite.mk (pageOutputPath (resolvedOutDir pdf od) (i + 1)) (encodeMode quality lossless)
        ∈ (pdf_to_webp pdf doc od dpi quality lossless).2.writes ∧
    pageOutputPath (resolvedOutDir pdf od) (i + 1)
        = resolvedOutDir pdf od ++ "/" ++ pad2 (i + 1) ++ ".webp" ∧
    2 ≤ (pad2 (i + 1)).length ∧
    (i + 1 < 10 → pad2 (i + 1) = "0" ++ decStr (i + 1)) ∧
    (10 ≤ i + 1 → pad2 (i + 1) = decStr (i + 1)) := by
  have hmem : i ∈ okPages doc := by
    rw [okPages, List.mem_filter]
    exact ⟨List.mem_range.mpr hi, by simp [hok]⟩
  have hw : FileWrite.mk (pageOutputPath (resolvedOutDir pdf od) (i + 1))
      (encodeMode quality lossless)
      ∈ okWrites doc (resolvedOutDir pdf od) quality lossless :=
    List.mem_map.mpr ⟨i, hmem, rfl⟩
  refine ⟨?_, rfl, pad2_length_ge_two _,
    fun h => pad2_of_lt_ten _ h, fun h => pad2_of_ge_ten _ h⟩
  rw [pdf_to_webp_eq]
  rw [if_neg (by omega), if_neg (by omega), if_neg (by simp [he]),
      if_neg (by simp [hf]), if_neg (by simp [ho]), if_neg (by omega)]
  split
  · exact hw
  · exact hw

/-- C4 witness: page index 2 of the sample document yields
`/docs/report_webp/03.webp`, written lossily at quality 90, method 6. -/
theorem c4_output_naming_witness :
    FileWrite.mk (pageOutputPath (resolvedOutDir samplePdf none) 3) (encodeMode 90 false)
        ∈ (pdf_to_webp samplePdf sampleDoc none 300 90 false).2.writes ∧
    pageOutputPath (resolvedOutDir samplePdf none) 3
        = resolvedOutDir samplePdf none ++ "/" ++ pad2 3 ++ ".webp" ∧
    2 ≤ (pad2 3).length ∧
    (3 < 10 → pad2 3 = "0" ++ decStr 3) ∧
    (10 ≤ 3 → pad2 3 = decStr 3) :=
  c4_output_naming samplePdf sampleDoc none 300 90 false 2
    (by decide) (by decide) (by decide) (by decide) (by decide) (by decide)
    (by decide) (by decide) (by decide)

/-- C5: a run with `total_pages > 0` in which zero pages convert ends in
a `RuntimeError` rather than an empty list; consequently every `.ok`
return of `pdf_to_webp` is a non-empty list. -/
theorem c5_nonempty_return (pdf : PdfPath) (doc : Doc) (od : Option String)
    (dpi quality : Int) (lossless : Bool) :
    (∀ files, (pdf_to_webp pdf doc od dpi quality lossless).1 = .ok files →
      files ≠ []) ∧
    (72 ≤ dpi → dpi ≤ 1200 → 0 ≤ quality → quality ≤ 100 →
      pdf.exists_ = true → pdf.is_file = true → doc.openOk = true →
      0 < doc.numPages → (∀ i, i < doc.numPages → doc.pageFails i = true) →
      (pdf_to_webp pdf doc od dpi quality lossless).1
        = .error (.runtimeError "Не удалось обработать ни одной страницы")) := by
  constructor
  · intro files h
    rw [pdf_to_webp_eq] at h
    repeat' split at h
    all_goals simp_all
  · intro hd1 hd2 hq1 hq2 he hf ho hn hall
    have hpages : okPages doc = [] := by
      rw [okPages]
      rw [List.filter_eq_nil_iff]
      intro a ha
      simp [hall a (List.mem_range.mp ha)]
    have hnil : okPaths doc (resolvedOutDir pdf od) = [] := by
      rw [okPaths, hpages, List.map_nil]
    rw [pdf_to_webp_eq]
    rw [if_neg (by omega), if_neg (by omega), if_neg (by simp [he]),
        if_neg (by simp [hf]), if_neg (by simp [ho]), if_neg (by omega),
        if_pos hnil]

/-- C5 witness: the successful sample run returns a non-empty list, and
the all-failing 2-page document ends in the zero-success `RuntimeError`. -/
theorem c5_nonempty_return_witness :
    ["/docs/report_webp/01.webp", "/docs/report_webp/03.webp"] ≠ [] ∧
    (pdf_to_webp samplePdf allFailDoc none 300 90 false).1
      = .error (.runtimeError "Не удалось обработать ни одной страницы") :=
  ⟨(c5_nonempty_return samplePdf sampleDoc none 300 90 false).1
      ["/docs/report_webp/01.webp", "/docs/report_webp/03.webp"] (by rfl),
   (c5_nonempty_return samplePdf allFailDoc none 300 90 false).2
      (by decide) (by decide) (by decide) (by decide) (by decide) (by decide)
      (by decide) (by decide) (fun i _ => rfl)⟩

/-- C6: a document that opens successfully but has zero pages makes the
run fail with the descriptive `ValueError` before any page is processed:
the output directory was created (idempotently) but no file was written,
and the handle was still closed. -/
theorem c6_zero_pages (pdf : PdfPath) (doc : Doc) (od : Option String)
    (dpi quality : Int) (lossless : Bool)
    (hd1 : 72 ≤ dpi) (hd2 : dpi ≤ 1200) (hq1 : 0 ≤ quality) (hq2 : quality ≤ 100)
    (he : pdf.exists_ = true) (hf : pdf.is_file = true) (ho : doc.openOk = true)
    (hz : doc.numPages = 0) :
    pdf_to_webp pdf doc od dpi quality lossless
      = (.error (.valueError "PDF файл не содержит страниц"),
         ⟨[⟨resolvedOutDir pdf od, true, true⟩], [], 1, 1⟩) := by
  rw [pdf_to_webp_eq]
  rw [if_neg (by omega), if_neg (by omega), if_neg (by simp [he]),
      if_neg (by simp [hf]), if_neg (by simp [ho]), if_pos hz]

/-- C6 witness: the zero-page document at default parameters. -/
theorem c6_zero_pages_witness :
    pdf_to_webp samplePdf emptyDoc none 300 90 false
      = (.error (.valueError "PDF файл не содержит страниц"),
         ⟨[⟨resolvedOutDir samplePdf none, true, true⟩], [], 1, 1⟩) :=
  c6_zero_pages samplePdf emptyDoc none 300 90 false
    (by decide) (by decide) (by decide) (by decide) (by decide) (by decide)
    (by decide) (by decide)

end PdfToWebpModel

namespace PdfToWebpModel

/-- C7: whenever the document open succeeds, the handle is opened once
and closed exactly once, on every exit path of the remaining run —
normal return, zero-pages error, and zero-successes error alike
(the `finally: doc.close()`). -/
theorem c7_handle_released_once (pdf : PdfPath) (doc : Doc) (od : Option String)
    (dpi quality : Int) (lossless : Bool)
    (hd1 : 72 ≤ dpi) (hd2 : dpi ≤ 1200) (hq1 : 0 ≤ quality) (hq2 : quality ≤ 100)
    (he : pdf.exists_ = true) (hf : pdf.is_file = true) (ho : doc.openOk = true) :
    (pdf_to_webp pdf doc od dpi quality lossless).2.docOpened = 1 ∧
    (pdf_to_webp pdf doc od dpi quality lossless).2.docClosed = 1 := by
  rw [pdf_to_webp_eq]
  rw [if_neg (by omega), if_neg (by omega), if_neg (by simp [he]),
      if_neg (by simp [hf]), if_neg (by simp [ho])]
  constructor
  · split
    · rfl
    · split
      · rfl
      · rfl
  · split
    · rfl
    · split
      · rfl
      · rfl

/-- C7 witness: the sample run opens and closes the handle once. -/
theorem c7_handle_released_once_witness :
    (pdf_to_webp samplePdf sampleDoc none 300 90 false).2.docOpened = 1 ∧
    (pdf_to_webp samplePdf sampleDoc none 300 90 false).2.docClosed = 1 :=
  c7_handle_released_once samplePdf sampleDoc none 300 90 false
    (by decide) (by decide) (by decide) (by decide) (by decide) (by decide) (by decide)

/-- C8: with `output_dir` absent, the resolved output directory is
`<parent>/<stem>_webp`, a sibling of the source file, and the one
`mkdir` call made for it passes `parents=True, exist_ok=True`, so
missing parents are created and an existing directory is no error. -/
theorem c8_default_output_dir (pdf : PdfPath) (doc : Doc)
    (dpi quality : Int) (lossless : Bool)
    (hd1 : 72 ≤ dpi) (hd2 : dpi ≤ 1200) (hq1 : 0 ≤ quality) (hq2 : quality ≤ 100)
    (he : pdf.exists_ = true) (hf : pdf.is_file = true) :
    resolvedOutDir pdf none = pdf.parent ++ "/" ++ pdf.stem ++ "_webp" ∧
    (pdf_to_webp pdf doc none dpi quality lossless).2.mkdirs
      = [⟨pdf.parent ++ "/" ++ pdf.stem ++ "_webp", true, true⟩] := by
  refine ⟨rfl, ?_⟩
  rw [pdf_to_webp_eq]
  rw [if_neg (by omega), if_neg (by omega), if_neg (by simp [he]),
      if_neg (by simp [hf])]
  split
  · rfl
  · split
    · rfl
    · split
      · rfl
      · rfl

/-- C8 witness: `/docs/report.pdf` resolves to `/docs/report_webp` and
that directory is the single idempotent `mkdir` call of the run. -/
theorem c8_default_output_dir_witness :
    resolvedOutDir samplePdf none = samplePdf.parent ++ "/" ++ samplePdf.stem ++ "_webp" ∧
    (pdf_to_webp samplePdf sampleDoc none 300 90 false).2.mkdirs
      = [⟨samplePdf.parent ++ "/" ++ samplePdf.stem ++ "_webp", true, true⟩] :=
  c8_default_output_dir samplePdf sampleDoc 300 90 false
    (by decide) (by decide) (by decide) (by decide) (by decide) (by decide)

/-- C9: with `lossless = true`, two runs that differ only in an
in-range `quality` are identical — same result, same trace, same
encodings — because the lossless `img.save` call never reads `quality`. -/
theorem c9_lossless_ignores_quality (pdf : PdfPath) (doc : Doc) (od : Option String)
    (dpi q1 q2 : Int)
    (hq1a : 0 ≤ q1) (hq1b : q1 ≤ 100) (hq2a : 0 ≤ q2) (hq2b : q2 ≤ 100) :
    pdf_to_webp pdf doc od dpi q1 true = pdf_to_webp pdf doc od dpi q2 true := by
  rw [pdf_to_webp_eq, pdf_to_webp_eq]
  by_cases hdpi : dpi < 72 ∨ dpi > 1200
  · rw [if_pos hdpi, if_pos hdpi]
  · have hw : okWrites doc (resolvedOutDir pdf od) q1 true
        = okWrites doc (resolvedOutDir pdf od) q2 true := by
      simp [okWrites, encodeMode]
    rw [if_neg hdpi, if_neg hdpi,
        if_neg (by omega : ¬(q1 < 0 ∨ q1 > 100)),
        if_neg (by omega : ¬(q2 < 0 ∨ q2 > 100)), hw]

/-- C9 witness: quality 10 and quality 95 lossless runs coincide. -/
theorem c9_lossless_ignores_quality_witness :
    pdf_to_webp samplePdf sampleDoc none 300 10 true
      = pdf_to_webp samplePdf sampleDoc none 300 95 true :=
  c9_lossless_ignores_quality samplePdf sampleDoc none 300 10 95
    (by decide) (by decide) (by decide) (by decide)

/-- C10: under valid parameters, a `pdf_path` that exists but is not a
regular file is rejected with a `ValueError` naming the path, with an
empty trace — before the output directory is resolved or created —
while a non-existent path gets the distinct `FileNotFoundError`. -/
theorem c10_not_regular_file (pdf : PdfPath) (doc : Doc) (od : Option String)
    (dpi quality : Int) (lossless : Bool)
    (hd1 : 72 ≤ dpi) (hd2 : dpi ≤ 1200) (hq1 : 0 ≤ quality) (hq2 : quality ≤ 100) :
    (pdf.exists_ = true → pdf.is_file = false →
      pdf_to_webp pdf doc od dpi quality lossless
        = (.error (.valueError ("Указанный путь не является файлом: " ++ pdf.full)),
           emptyTrace)) ∧
    (pdf.exists_ = false →
      pdf_to_webp pdf doc od dpi quality lossless
        = (.error (.fileNotFoundError ("PDF файл не найден: " ++ pdf.full)),
           emptyTrace)) := by
  constructor
  · intro he hnf
    rw [pdf_to_webp_eq]
    rw [if_neg (by omega), if_neg (by omega), if_neg (by simp [he]), if_pos hnf]
  · intro he
    rw [pdf_to_webp_eq]
    rw [if_neg (by omega), if_neg (by omega), if_pos he]

/-- C10 witness: the directory path `/docs/folder` is rejected with the
`ValueError` and the missing path `/docs/ghost.pdf` with the
`FileNotFoundError`, both with no filesystem work. -/
theorem c10_not_regular_file_witness :
    pdf_to_webp dirPdf sampleDoc none 300 90 false
      = (.error (.valueError ("Указанный путь не является файлом: " ++ dirPdf.full)),
         emptyTrace) ∧
    pdf_to_webp missingPdf sampleDoc none 300 90 false
      = (.error (.fileNotFoundError ("PDF файл не найден: " ++ missingPdf.full)),
         emptyTrace) :=
  ⟨(c10_not_regular_file dirPdf sampleDoc none 300 90 false
      (by decide) (by decide) (by decide) (by decide)).1 (by decide) (by decide),
   (c10_not_regular_file missingPdf sampleDoc none 300 90 false
      (by decide) (by decide) (by decide) (by decide)).2 (by decide)⟩

end PdfToWebpModel
